import Mathlib

/-!
Verification development for the customer segmentation pipeline
(`app/pipeline.py`, `app/main.py`, `testing/segmentation_email_pipeline.py`).

Shallow embedding conventions:
- a pandas DataFrame of transactions is a `RawTable`: a list of column names
  plus a list of typed rows;
- numeric columns after `pd.to_numeric(..., errors="coerce")` are `Option ℚ`
  (`none` models NaN after a failed coercion or a missing value);
- `InvoiceDate` after `pd.to_datetime` is `Option Int`, a day index
  (`none` models NaT);
- fallible Python functions return `Except PyError _`.
-/

/-- Python exceptions raised by the pipeline code. -/
inductive PyError where
  | schemaError (missing : List String)
  | valueError (msg : String)
  | attributeError
deriving DecidableEq

/-- One input row, after the dtype conversions of `clean_transactions`
(`app/pipeline.py` lines 34-41): `InvoiceNo`, `StockCode`, `Description`
are `astype(str)` so always strings; `Quantity`, `UnitPrice` are
`to_numeric(errors="coerce")`; `CustomerID` is nullable integer;
`InvoiceDate` is `to_datetime(errors="coerce")`; `Name` and `Email` may be
missing (NaN, modelled as `none`). An empty string email is `some ""`,
distinct from a missing one. -/
structure RawRow where
  invoiceNo : String
  stockCode : String
  description : String
  quantity : Option ℚ
  unitPrice : Option ℚ
  customerID : Option Int
  invoiceDate : Option Int
  name : Option String
  email : Option String
  country : String
deriving DecidableEq

/-- An input table: its column names plus its rows. -/
structure RawTable where
  cols : List String
  rows : List RawRow
deriving DecidableEq

/-- A cleaned transaction row: the survivors of the filters in
`clean_transactions` (`app/pipeline.py` lines 43-47). `customerID`,
`invoiceDate` and `email` are non-optional because `dropna` removed rows
where they were missing; `totalPrice` is the derived line total. -/
structure TxRow where
  invoiceNo : String
  stockCode : String
  description : String
  quantity : ℚ
  unitPrice : ℚ
  customerID : Int
  invoiceDate : Int
  name : Option String
  email : String
  country : String
  totalPrice : ℚ
deriving DecidableEq

/-- The ten required columns (`app/pipeline.py` lines 14-17). -/
def REQUIRED_COLUMNS : List String :=
  ["InvoiceNo","StockCode","Description","Quantity","InvoiceDate","UnitPrice",
   "CustomerID","Name","Email","Country"]

/-- Row-level cleaning (`app/pipeline.py` lines 43-47): drop the row when the
invoice id starts with "C", when quantity or unit price is missing or
non-positive, or when customer id, invoice date or email is missing
(`dropna`); otherwise compute the line total. All three pandas filters are
row-local, so applying them per row yields the same surviving set. -/
def cleanRow? (r : RawRow) : Option TxRow :=
  if r.invoiceNo.startsWith "C" then none
  else
    match r.quantity, r.unitPrice with
    | some q, some p =>
      if 0 < q ∧ 0 < p then
        match r.customerID, r.invoiceDate, r.email with
        | some cid, some date, some em =>
          some { invoiceNo := r.invoiceNo, stockCode := r.stockCode,
                 description := r.description, quantity := q, unitPrice := p,
                 customerID := cid, invoiceDate := date, name := r.name,
                 email := em, country := r.country, totalPrice := q * p }
        | _, _, _ => none
      else none
    | _, _ => none

/-- Embeds `clean_transactions` (`app/pipeline.py` lines 28-48, identical in
`testing/segmentation_email_pipeline.py` lines 41-61): first check that every
required column is present, raising `ValueError` with the missing list before
any row is touched; then apply the row filters and compute line totals. -/
def clean_transactions (t : RawTable) : Except PyError (List TxRow) :=
  let missing := REQUIRED_COLUMNS.filter (fun c => decide (c ∉ t.cols))
  if missing.isEmpty then Except.ok (t.rows.filterMap cleanRow?)
  else Except.error (PyError.schemaError missing)

/-- Rows of one customer: `df.groupby("CustomerID")` group membership. -/
def custRows (df : List TxRow) (c : Int) : List TxRow :=
  df.filter (fun r => decide (r.customerID = c))

/-- The distinct customer ids in ascending order: pandas `groupby` sorts the
group keys ascending by default, and each key appears once. -/
def customersOf (df : List TxRow) : List Int :=
  List.insertionSort (fun a b : Int => a ≤ b) ((df.map (fun r => r.customerID)).dedup)

/-- Running maximum, the accumulator form of a pandas `Series.max`. -/
def maxOf (x : Int) : List Int → Int
  | [] => x
  | y :: ys => maxOf (max x y) ys

/-- Embeds the Series max `df["InvoiceDate"].max()` over the whole cleaned set
(`app/pipeline.py` line 52). The value 0 for an empty set stands for NaT and
is never used on the guarded pipeline path. -/
def maxDateOf (df : List TxRow) : Int :=
  match df.map (fun r => r.invoiceDate) with
  | [] => 0
  | d :: ds => maxOf d ds

/-- Snapshot date: one day after the maximum invoice date
(`app/pipeline.py` line 52). -/
def snapshotOf (df : List TxRow) : Int :=
  maxDateOf df + 1

/-- Per-customer maximum invoice date:
`df.groupby("CustomerID")["InvoiceDate"].max()` (`app/pipeline.py` line 54). -/
def lastPurchaseOf (df : List TxRow) (c : Int) : Int :=
  match (custRows df c).map (fun r => r.invoiceDate) with
  | [] => 0
  | d :: ds => maxOf d ds

/-- Per-customer sum of line totals:
`df.groupby("CustomerID")["TotalPrice"].sum()` (`app/pipeline.py` line 58). -/
def monetaryOf (df : List TxRow) (c : Int) : ℚ :=
  ((custRows df c).map (fun r => r.totalPrice)).sum

/-- Summed quantity of one (customer, description) group
(`app/pipeline.py` lines 62-64). -/
def qtyOf (df : List TxRow) (c : Int) (d : String) : ℚ :=
  (((custRows df c).filter (fun r => decide (r.description = d))).map
    (fun r => r.quantity)).sum

/-- Summed line total of one (customer, description) group
(`app/pipeline.py` lines 62-64). -/
def revOf (df : List TxRow) (c : Int) (d : String) : ℚ :=
  (((custRows df c).filter (fun r => decide (r.description = d))).map
    (fun r => r.totalPrice)).sum

/-- The distinct descriptions of one customer in ascending order: the group
keys of `df.groupby(["CustomerID","Description"])`, which pandas sorts
lexicographically by (customer id, description). -/
def descsOf (df : List TxRow) (c : Int) : List String :=
  List.insertionSort (fun a b : String => a ≤ b)
    (((custRows df c).map (fun r => r.description)).dedup)

/-- Precedence used by `sort_values(["CustomerID","Qty","Rev"],
ascending=[True,False,False])` within one customer: higher summed quantity
first, then higher summed revenue. -/
def favRel (df : List TxRow) (c : Int) (d1 d2 : String) : Prop :=
  qtyOf df c d2 < qtyOf df c d1 ∨
    (qtyOf df c d1 = qtyOf df c d2 ∧ revOf df c d2 ≤ revOf df c d1)

instance favRelDecidable (df : List TxRow) (c : Int) : DecidableRel (favRel df c) :=
  fun d1 d2 => by unfold favRel; infer_instance

/-- Favorite category (`testing/segmentation_email_pipeline.py` lines 74-80):
stable sort of the per-(customer, description) aggregates by quantity
descending then revenue descending, then `groupby("CustomerID").first()`,
that is the head of the sorted description list of that customer. The empty
string default is unreachable for customers present in the set. -/
def favOf (df : List TxRow) (c : Int) : String :=
  match List.insertionSort (favRel df c) (descsOf df c) with
  | [] => ""
  | d :: _ => d

/-- Last row of one customer after the stable ascending sort by invoice date
(`df.sort_values("InvoiceDate").groupby("CustomerID").tail(1)`,
`app/pipeline.py` line 68): the latest-dated row, latest input position
winning among equal dates. -/
def latestRowOf (r0 : TxRow) (rs : List TxRow) : TxRow :=
  rs.foldl (fun acc r => if acc.invoiceDate ≤ r.invoiceDate then r else acc) r0

/-- The row supplying the most recent known (name, email) pair of a customer,
or `none` when the customer has no rows. -/
def latestOf? (df : List TxRow) (c : Int) : Option TxRow :=
  match custRows df c with
  | [] => none
  | r0 :: rs => some (latestRowOf r0 rs)

/-- One customer feature row (`app/pipeline.py` lines 71-78). `daysAgo` is the
column `Last_Purchase_Days_Ago` and `totalSpent` the column `Total_Spent`;
the source builds both as renamed copies of `Recency` and `Monetary`. -/
structure FeatRow where
  customerID : Int
  name : Option String
  email : Option String
  lastPurchase : Int
  favCategory : String
  totalSpent : ℚ
  daysAgo : Int
  recency : Int
  frequency : Nat
  monetary : ℚ
deriving DecidableEq

/-- The feature row of one customer, assembling the aggregates of
`derive_customer_features` (`testing/segmentation_email_pipeline.py`
lines 63-93). `frequency` is `groupby("CustomerID")["InvoiceNo"].nunique()`,
the number of unique invoice ids of the group. -/
def featRowOf (df : List TxRow) (c : Int) : FeatRow :=
  { customerID := c
    name := (latestOf? df c).bind (fun r => r.name)
    email := (latestOf? df c).map (fun r => r.email)
    lastPurchase := lastPurchaseOf df c
    favCategory := favOf df c
    totalSpent := monetaryOf df c
    daysAgo := snapshotOf df - lastPurchaseOf df c
    recency := snapshotOf df - lastPurchaseOf df c
    frequency := (((custRows df c).map (fun r => r.invoiceNo)).dedup).length
    monetary := monetaryOf df c }

/-- Embeds `derive_customer_features` of
`testing/segmentation_email_pipeline.py` (lines 63-96): one feature row per
distinct customer, output sorted by monetary descending, returned together
with the snapshot date. The source sorts one column with the default kind;
the stable sort here is one admissible realisation, and no verified property
depends on the order among equal monetary values. -/
def derive_customer_features (df : List TxRow) : List FeatRow × Int :=
  (List.insertionSort (fun a b : FeatRow => b.monetary ≤ a.monetary)
    ((customersOf df).map (featRowOf df)), snapshotOf df)

/-- Embeds `derive_customer_features` of `app/pipeline.py` (lines 50-81).
Lines 52-60 compute the snapshot date and the per-customer aggregates, but
line 62-65 binds `prod_agg` to the value of a chained
`sort_values(..., inplace=True)` call, and a pandas sort with inplace set
returns None; line 66 then calls `groupby` on None, so the function raises
AttributeError on every input and can never return the aggregates it
computed. -/
def derive_customer_features_app (df : List TxRow) :
    Except PyError (List FeatRow × Int) :=
  let _snapshot := snapshotOf df
  let _aggregates := (customersOf df).map (featRowOf df)
  Except.error PyError.attributeError

/-- Embeds the emptiness guard of the pipeline
(`testing/segmentation_email_pipeline.py` lines 170-175): after cleaning,
a cleaned set with zero rows aborts with
ValueError("No valid transactions to process after cleaning.") before
feature derivation; otherwise features are derived. -/
def feature_step (tx : List TxRow) : Except PyError (List FeatRow × Int) :=
  if tx.isEmpty then
    Except.error (PyError.valueError "No valid transactions to process after cleaning.")
  else Except.ok (derive_customer_features tx)

/-- The static cluster-to-segment table `CLUSTER_MAP`
(`app/pipeline.py` lines 9-13), as a partial lookup: `Series.map` of a dict
yields NaN, here `none`, for keys outside the table. -/
def CLUSTER_MAP : Int → Option String :=
  fun c =>
    if c = 0 then some "At-Risk Customers"
    else if c = 1 then some "Regular Customers"
    else if c = 2 then some "VIP Customers"
    else none

/-- The segment of a cluster id:
`out["Cluster"].map(CLUSTER_MAP).fillna("Unknown")`
(`app/pipeline.py` line 94). -/
def segmentOf (c : Int) : String :=
  (CLUSTER_MAP c).getD "Unknown"

/-- A feature row annotated with its cluster id and segment name
(`app/pipeline.py` lines 92-94). -/
structure ScoredRow where
  base : FeatRow
  cluster : Int
  segment : String
deriving DecidableEq

/-- The `[Recency, Frequency, Monetary]` triple of one feature row, in that
fixed column order (`app/pipeline.py` line 84). -/
def rfmOf (r : FeatRow) : ℚ × ℚ × ℚ :=
  ((r.recency : ℚ), ((r.frequency : ℕ) : ℚ), r.monetary)

/-- Embeds `score_segments` (`app/pipeline.py` lines 83-95): extract the RFM
triples, scale them row by row with the fitted scaler, let the fitted model
predict one cluster id per row, then attach cluster id and mapped segment to
a copy of each feature row. The scaler and model are the opaque external
artifacts, passed as functions; pandas rejects a cluster column whose length
differs from the frame, so the verified statements assume the model returns
one id per row. -/
def score_segments (features : List FeatRow) (scaler : ℚ × ℚ × ℚ → ℚ × ℚ × ℚ)
    (predict : List (ℚ × ℚ × ℚ) → List Int) : List ScoredRow :=
  let clusters := predict ((features.map rfmOf).map scaler)
  (features.zip clusters).map (fun rc => ⟨rc.1, rc.2, segmentOf rc.2⟩)

/-- The apostrophe character, kept out of string literals. -/
def apos : String :=
  String.singleton (Char.ofNat 39)

/-- Embeds `generate_email` of `testing/segmentation_email_pipeline.py`
(lines 112-138). A missing (NaN) name or favorite category is `none`.
The name falls back to "there" when missing or blank; the favorite category
falls back to "your favorites" when missing, not a string, or blank (the
Python `.strip()` emptiness test is read as: every character is
whitespace). The
VIP and Regular branches always return; the remaining branch (At-Risk or
any other segment) applies `int(...)` to the days value, which raises
ValueError when that value is NaN. The app variant (`app/pipeline.py`
lines 97-124) also raises there: it first substitutes the placeholder
string "many" for a missing days value and then applies `int` to it. -/
def generate_email (name : Option String) (segment : String)
    (lastPurchaseDays : Option Int) (favCategory : Option String) :
    Except PyError (String × String) :=
  let nameText :=
    match name with
    | none => "there"
    | some s => if s.data.all (fun ch => ch.isWhitespace) then "there" else s
  let favText :=
    match favCategory with
    | none => "your favorites"
    | some s => if s.data.all (fun ch => ch.isWhitespace) then "your favorites" else s
  if segment = "VIP Customers" then
    Except.ok ("Exclusive early access just for you",
      "Hey " ++ nameText ++ ",\n\nAs one of our VIPs, enjoy early access to new arrivals in "
        ++ favText ++ ".\nThanks for being with us!")
  else if segment = "Regular Customers" then
    Except.ok ("A little thank-you: 15% off " ++ favText,
      "Hi " ++ nameText ++ ",\n\nYou" ++ apos ++ "ve been loving our " ++ favText
        ++ ". Here" ++ apos ++ "s 15% off your next order!\nSee what"
        ++ apos ++ "s new and recommended for you.")
  else
    match lastPurchaseDays with
    | none => Except.error (PyError.valueError "cannot convert float NaN to integer")
    | some d =>
      Except.ok ("We miss you â€” " ++ favText ++ " waiting for you",
        "Hey " ++ nameText ++ ",\n\nIt" ++ apos ++ "s been " ++ toString d
          ++ " days since your last purchase. Come back for 25% off " ++ favText ++ "!")

/-- Recipient validation of the dispatch loop (`app/main.py` line 83):
`if not email or "@" not in email: continue` skips a missing or empty email
and an email without an "@"; emptiness and the single-character substring
test are read off the character list of the email. -/
def validEmail : Option String → Bool
  | none => false
  | some s => !s.data.isEmpty && s.data.contains (Char.ofNat 64)

/-- The cap test `if limit and sent >= limit` (`app/main.py` line 92) under
Python truthiness: no limit given or a limit of 0 never stops the loop;
otherwise the loop breaks once the count of sent messages reaches the
limit. -/
def limitHit : Option Int → Int → Bool
  | none, _ => false
  | some n, sent => if n = 0 then false else decide (n ≤ sent)

/-- Embeds the dispatch loop of `app/main.py` (lines 72-95) over the scored
rows in their given order, with `sent` the running count of successful
sends. A row with an invalid email is skipped without counting; `sendOk`
tells whether the SMTP send succeeds, a failure is caught and iteration
continues without counting; after a successful send the count rises and the
cap test may break the loop. The result lists the rows sent to, in send
order. -/
def send_loop (sendOk : ScoredRow → Bool) (limit : Option Int) :
    List ScoredRow → Int → List ScoredRow
  | [], _ => []
  | r :: rs, sent =>
    if validEmail r.base.email then
      if sendOk r then
        if limitHit limit (sent + 1) then [r]
        else r :: send_loop sendOk limit rs (sent + 1)
      else send_loop sendOk limit rs sent
    else send_loop sendOk limit rs sent

theorem le_maxOf_init : ∀ (l : List Int) (x : Int), x ≤ maxOf x l := by
  intro l
  induction l with
  | nil => intro x; simp [maxOf]
  | cons y ys ih =>
    intro x
    simp only [maxOf]
    exact le_trans (le_max_left x y) (ih (max x y))

theorem le_maxOf_of_mem : ∀ (l : List Int) (x y : Int), y ∈ l → y ≤ maxOf x l := by
  intro l
  induction l with
  | nil => intro x y h; cases h
  | cons z zs ih =>
    intro x y h
    simp only [maxOf]
    rcases List.mem_cons.mp h with h1 | h1
    · subst h1
      exact le_trans (le_max_right x y) (le_maxOf_init zs (max x y))
    · exact ih (max x z) y h1

theorem maxOf_eq_or_mem : ∀ (l : List Int) (x : Int), maxOf x l = x ∨ maxOf x l ∈ l := by
  intro l
  induction l with
  | nil => intro x; exact Or.inl rfl
  | cons y ys ih =>
    intro x
    simp only [maxOf]
    rcases ih (max x y) with h | h
    · rcases max_choice x y with hm | hm
      · exact Or.inl (by rw [h, hm])
      · exact Or.inr (by rw [h, hm]; exact List.mem_cons_self y ys)
    · exact Or.inr (List.mem_cons_of_mem y h)

theorem mem_customersOf {df : List TxRow} {c : Int} :
    c ∈ customersOf df ↔ c ∈ df.map (fun r => r.customerID) := by
  unfold customersOf
  rw [List.mem_insertionSort, List.mem_dedup]

theorem custRows_ne_nil {df : List TxRow} {c : Int}
    (h : c ∈ df.map (fun r => r.customerID)) : custRows df c ≠ [] := by
  obtain ⟨r, hr, hrc⟩ := List.mem_map.mp h
  have hmem : r ∈ custRows df c := by
    unfold custRows
    exact List.mem_filter.mpr ⟨hr, by simp [hrc]⟩
  exact List.ne_nil_of_mem hmem

theorem lastPurchaseOf_spec {df : List TxRow} {c : Int}
    (h : custRows df c ≠ []) :
    lastPurchaseOf df c ∈ (custRows df c).map (fun r => r.invoiceDate) ∧
      ∀ d ∈ (custRows df c).map (fun r => r.invoiceDate), d ≤ lastPurchaseOf df c := by
  unfold lastPurchaseOf
  cases hm : (custRows df c).map (fun r => r.invoiceDate) with
  | nil => exact absurd (List.map_eq_nil_iff.mp hm) h
  | cons d ds =>
    constructor
    · show maxOf d ds ∈ d :: ds
      rcases maxOf_eq_or_mem ds d with h1 | h1
      · rw [h1]; exact List.mem_cons_self d ds
      · exact List.mem_cons_of_mem d h1
    · intro y hy
      show y ≤ maxOf d ds
      rcases List.mem_cons.mp hy with h1 | h1
      · subst h1; exact le_maxOf_init ds y
      · exact le_maxOf_of_mem ds d y h1

theorem maxDateOf_spec {df : List TxRow} (h : df ≠ []) :
    maxDateOf df ∈ df.map (fun r => r.invoiceDate) ∧
      ∀ d ∈ df.map (fun r => r.invoiceDate), d ≤ maxDateOf df := by
  unfold maxDateOf
  cases hm : df.map (fun r => r.invoiceDate) with
  | nil => exact absurd (List.map_eq_nil_iff.mp hm) h
  | cons d ds =>
    constructor
    · show maxOf d ds ∈ d :: ds
      rcases maxOf_eq_or_mem ds d with h1 | h1
      · rw [h1]; exact List.mem_cons_self d ds
      · exact List.mem_cons_of_mem d h1
    · intro y hy
      show y ≤ maxOf d ds
      rcases List.mem_cons.mp hy with h1 | h1
      · subst h1; exact le_maxOf_init ds y
      · exact le_maxOf_of_mem ds d y h1

theorem mem_derive_iff {df : List TxRow} {r : FeatRow} :
    r ∈ (derive_customer_features df).1 ↔ ∃ c ∈ customersOf df, r = featRowOf df c := by
  unfold derive_customer_features
  simp only [List.mem_insertionSort, List.mem_map]
  constructor
  · rintro ⟨c, hc, h⟩; exact ⟨c, hc, h.symm⟩
  · rintro ⟨c, hc, h⟩; exact ⟨c, hc, h.symm⟩

/-- Discriminator for the error case of the cleaning step. -/
def isError : Except PyError (List TxRow) → Bool
  | Except.error _ => true
  | Except.ok _ => false

/-- Example raw row: a valid transaction. -/
def exRaw1 : RawRow :=
  { invoiceNo := "1002", stockCode := "S1", description := "TEA SET",
    quantity := some 3, unitPrice := some 10, customerID := some 1,
    invoiceDate := some 100, name := some "Bob", email := some "bob@x.com",
    country := "UK" }

/-- Example raw row whose email is the empty string, not missing: `dropna`
keeps it. -/
def exRaw2 : RawRow :=
  { invoiceNo := "1003", stockCode := "S2", description := "COFFEE",
    quantity := some 1, unitPrice := some 5, customerID := some 2,
    invoiceDate := some 101, name := none, email := some "",
    country := "UK" }

/-- Example table with all ten required columns. -/
def exTable : RawTable :=
  { cols := REQUIRED_COLUMNS, rows := [exRaw1, exRaw2] }

/-- Example table missing most required columns. -/
def exBadTable : RawTable :=
  { cols := ["InvoiceNo", "Description"], rows := [] }

/-- The cleaned form of `exRaw1`. -/
def exTx1 : TxRow :=
  { invoiceNo := "1002", stockCode := "S1", description := "TEA SET",
    quantity := 3, unitPrice := 10, customerID := 1, invoiceDate := 100,
    name := some "Bob", email := "bob@x.com", country := "UK", totalPrice := 30 }

/-- The cleaned form of `exRaw2`: its empty email survives cleaning. -/
def exTx2 : TxRow :=
  { invoiceNo := "1003", stockCode := "S2", description := "COFFEE",
    quantity := 1, unitPrice := 5, customerID := 2, invoiceDate := 101,
    name := none, email := "", country := "UK", totalPrice := 5 }

/-- Example cleaned transaction set. -/
def exDf : List TxRow := [exTx1, exTx2]

deriving instance DecidableEq for Except

/-- Characterization of a surviving row: if `cleanRow?` keeps a raw row, the
invoice id did not start with "C", quantity and unit price were present and
positive, and the identifying fields carry over. -/
theorem cleanRow?_eq_some {a : RawRow} {r : TxRow} (h : cleanRow? a = some r) :
    a.invoiceNo.startsWith "C" = false ∧ 0 < r.quantity ∧ 0 < r.unitPrice ∧
      r.invoiceNo = a.invoiceNo := by
  unfold cleanRow? at h
  by_cases hC : a.invoiceNo.startsWith "C" = true
  · rw [if_pos hC] at h; cases h
  · rw [if_neg hC] at h
    rcases hq : a.quantity with _ | q
    · rw [hq] at h; cases h
    · rcases hp : a.unitPrice with _ | p
      · rw [hq, hp] at h; cases h
      · rw [hq, hp] at h
        dsimp only [] at h
        by_cases hpos : 0 < q ∧ 0 < p
        · rw [if_pos hpos] at h
          rcases hcid : a.customerID with _ | cid
          · rw [hcid] at h; cases h
          · rcases hdate : a.invoiceDate with _ | date
            · rw [hcid, hdate] at h; cases h
            · rcases hem : a.email with _ | em
              · rw [hcid, hdate, hem] at h; cases h
              · rw [hcid, hdate, hem] at h
                dsimp only [] at h
                injection h with h
                subst h
                exact ⟨by simpa using hC, hpos.1, hpos.2, rfl⟩
        · rw [if_neg hpos] at h; cases h

/-- C1, counterexample: a row whose email is the empty string (present, not
missing) passes every filter of `clean_transactions`, so the output contains
a row with an empty email, contradicting the claimed non-empty-email
invariant. The source only applies `dropna(subset=[..., "Email"])`, which
drops missing values, not empty strings. -/
theorem clean_transactions_keeps_empty_email_cex :
    clean_transactions exTable = Except.ok [exTx1, exTx2] ∧ exTx2.email = "" := by
  exact ⟨by with_unfolding_all decide, rfl⟩

/-- C1 (amended): every row of the output of `clean_transactions` has
quantity > 0, unit price > 0 and an invoice id that does not start with the
cancellation marker "C"; customer id, invoice date and email are non-missing
by construction (the output row type has no optional slot for them), but an
empty-string email is retained. -/
theorem clean_transactions_row_invariants (t : RawTable) (rows : List TxRow)
    (r : TxRow) (hok : clean_transactions t = Except.ok rows) (hr : r ∈ rows) :
    0 < r.quantity ∧ 0 < r.unitPrice ∧ r.invoiceNo.startsWith "C" = false := by
  simp only [clean_transactions] at hok
  split at hok
  · injection hok with h
    subst h
    obtain ⟨a, _ha, hsome⟩ := List.mem_filterMap.mp hr
    obtain ⟨hC, hq, hp, hinv⟩ := cleanRow?_eq_some hsome
    exact ⟨hq, hp, by rw [hinv]; exact hC⟩
  · exact absurd hok (by simp)

/-- C1, witness for the amended theorem at a concrete table. -/
theorem clean_transactions_row_invariants_witness :
    0 < exTx1.quantity ∧ 0 < exTx1.unitPrice ∧
      exTx1.invoiceNo.startsWith "C" = false :=
  clean_transactions_row_invariants exTable [exTx1, exTx2] exTx1
    (by with_unfolding_all decide) (by decide)

/-- C9: `clean_transactions` raises exactly when at least one of the ten
required columns is absent from the input table, and the raised error is the
schema error listing the missing columns. The column check is the first
statement of the function and the error return carries no rows, so no
partial cleaning result is produced. -/
theorem clean_transactions_schema_iff (t : RawTable) :
    (isError (clean_transactions t) = true ↔ ∃ c ∈ REQUIRED_COLUMNS, c ∉ t.cols) ∧
    (∀ e, clean_transactions t = Except.error e →
      e = PyError.schemaError (REQUIRED_COLUMNS.filter (fun c => decide (c ∉ t.cols)))) := by
  simp only [clean_transactions]
  by_cases hm : (REQUIRED_COLUMNS.filter (fun c => decide (c ∉ t.cols))).isEmpty = true
  · rw [if_pos hm]
    refine ⟨⟨fun h => by simp [isError] at h, ?_⟩, fun e he => absurd he (by simp)⟩
    rintro ⟨c, hc, hnc⟩
    have hcf : c ∈ REQUIRED_COLUMNS.filter (fun c => decide (c ∉ t.cols)) :=
      List.mem_filter.mpr ⟨hc, by simpa using hnc⟩
    rw [List.isEmpty_iff] at hm
    rw [hm] at hcf
    cases hcf
  · rw [if_neg hm]
    refine ⟨⟨fun _ => ?_, fun _ => rfl⟩, fun e he => ?_⟩
    · rw [List.isEmpty_iff] at hm
      obtain ⟨c, hc⟩ := List.exists_mem_of_ne_nil _ hm
      obtain ⟨hcr, hdec⟩ := List.mem_filter.mp hc
      exact ⟨c, hcr, by simpa using hdec⟩
    · injection he with h
      exact h.symm

/-- C9, witness: a table missing most required columns makes
`clean_transactions` raise. -/
theorem clean_transactions_schema_iff_witness :
    isError (clean_transactions exBadTable) = true :=
  (clean_transactions_schema_iff exBadTable).1.mpr ⟨"StockCode", by decide, by decide⟩

/-- C4: the feature-derivation step of the pipeline (the emptiness guard the
caller runs right before deriving features, plus the derivation itself)
raises the empty-input ValueError exactly on a cleaned set with zero rows;
a non-empty cleaned set is derived without this error. -/
theorem feature_step_empty_iff_error (tx : List TxRow) :
    feature_step tx =
      Except.error (PyError.valueError "No valid transactions to process after cleaning.")
      ↔ tx = [] := by
  cases tx with
  | nil => simp [feature_step]
  | cons a l => simp [feature_step]

/-- C4, witness: the empty cleaned set raises, a one-row set does not. -/
theorem feature_step_empty_iff_error_witness :
    feature_step [] =
      Except.error (PyError.valueError "No valid transactions to process after cleaning.") ∧
    feature_step [exTx1] ≠
      Except.error (PyError.valueError "No valid transactions to process after cleaning.") :=
  ⟨(feature_step_empty_iff_error []).mpr rfl,
   fun h => List.noConfusion ((feature_step_empty_iff_error [exTx1]).mp h)⟩

/-- C2: the app variant of `derive_customer_features` raises AttributeError
on every input, here shown at a concrete non-empty cleaned set, because the
favorite-category block chains `sort_values(..., inplace=True)` (which
returns None) and then calls `groupby` on the None; it therefore never
assigns any favorite category. The testing variant sorts without chaining
and implements the claimed tie-break. -/
theorem derive_app_fav_category_crash :
    derive_customer_features_app exDf = Except.error PyError.attributeError := rfl

/-- C3: `generate_email` is not total: with a missing days-since-last-purchase
value, the At-Risk/Unknown branch applies `int(...)` to the missing value and
raises ValueError instead of returning a (subject, body) pair; the app
variant first substitutes the string "many" and then crashes applying
`int` to it. -/
theorem generate_email_missing_days_raises :
    generate_email (some "Sam") "At-Risk Customers" none (some "TEA SET") =
      Except.error (PyError.valueError "cannot convert float NaN to integer") := by
  rfl

/-- C5: for every feature row the recency equals the days-ago field (the
source builds `Last_Purchase_Days_Ago` as a rename of `Recency`), both equal
snapshot date minus the last-purchase value, the last-purchase value is the
maximum invoice date of that customer, and the snapshot date is one day past
the maximum invoice date of the whole cleaned set. -/
theorem recency_eq_days_ago_snapshot (df : List TxRow) (r : FeatRow)
    (hr : r ∈ (derive_customer_features df).1) :
    r.recency = r.daysAgo ∧
    r.recency = (derive_customer_features df).2 - r.lastPurchase ∧
    r.lastPurchase ∈ (custRows df r.customerID).map (fun t => t.invoiceDate) ∧
    (∀ d ∈ (custRows df r.customerID).map (fun t => t.invoiceDate),
      d ≤ r.lastPurchase) ∧
    ((derive_customer_features df).2 - 1) ∈ df.map (fun t => t.invoiceDate) ∧
    (∀ d ∈ df.map (fun t => t.invoiceDate),
      d ≤ (derive_customer_features df).2 - 1) := by
  obtain ⟨c, hc, rfl⟩ := mem_derive_iff.mp hr
  have hcm : c ∈ df.map (fun t => t.customerID) := mem_customersOf.mp hc
  have hne : custRows df c ≠ [] := custRows_ne_nil hcm
  have hdf : df ≠ [] := by
    intro h
    subst h
    exact hne rfl
  have hlp := lastPurchaseOf_spec hne
  have hmd := maxDateOf_spec hdf
  refine ⟨rfl, rfl, hlp.1, hlp.2, ?_, ?_⟩
  · show maxDateOf df + 1 - 1 ∈ df.map (fun t => t.invoiceDate)
    have he : maxDateOf df + 1 - 1 = maxDateOf df := by omega
    rw [he]
    exact hmd.1
  · intro d hd
    have hle := hmd.2 d hd
    have hs : (derive_customer_features df).2 = maxDateOf df + 1 := rfl
    omega

/-- C5, witness at a concrete cleaned set with two customers. -/
theorem recency_eq_days_ago_snapshot_witness :
    (featRowOf exDf 1).recency = (featRowOf exDf 1).daysAgo ∧
    (featRowOf exDf 1).recency =
      (derive_customer_features exDf).2 - (featRowOf exDf 1).lastPurchase :=
  ⟨(recency_eq_days_ago_snapshot exDf (featRowOf exDf 1) (by with_unfolding_all decide)).1,
   (recency_eq_days_ago_snapshot exDf (featRowOf exDf 1) (by with_unfolding_all decide)).2.1⟩

/-- C10: every customer present in the cleaned set has a feature row whose
frequency equals the number of distinct invoice ids among the rows of that
customer, hence at least 1. -/
theorem frequency_distinct_invoices (df : List TxRow) (c : Int)
    (h : c ∈ df.map (fun r => r.customerID)) :
    featRowOf df c ∈ (derive_customer_features df).1 ∧
    (featRowOf df c).customerID = c ∧
    (featRowOf df c).frequency =
      (((custRows df c).map (fun r => r.invoiceNo)).toFinset).card ∧
    1 ≤ (featRowOf df c).frequency := by
  refine ⟨mem_derive_iff.mpr ⟨c, mem_customersOf.mpr h, rfl⟩, rfl, ?_, ?_⟩
  · show (((custRows df c).map (fun r => r.invoiceNo)).dedup).length = _
    exact (List.card_toFinset _).symm
  · have hne := custRows_ne_nil h
    show 1 ≤ (((custRows df c).map (fun r => r.invoiceNo)).dedup).length
    have hmapne : (custRows df c).map (fun r => r.invoiceNo) ≠ [] := by
      intro hx
      exact hne (List.map_eq_nil_iff.mp hx)
    obtain ⟨a, ha⟩ := List.exists_mem_of_ne_nil _ hmapne
    have had : a ∈ ((custRows df c).map (fun r => r.invoiceNo)).dedup :=
      List.mem_dedup.mpr ha
    have hpos := List.length_pos.mpr (List.ne_nil_of_mem had)
    omega

/-- C10, witness at a concrete cleaned set. -/
theorem frequency_distinct_invoices_witness :
    featRowOf exDf 1 ∈ (derive_customer_features exDf).1 ∧
    (featRowOf exDf 1).customerID = 1 ∧
    (featRowOf exDf 1).frequency =
      (((custRows exDf 1).map (fun r => r.invoiceNo)).toFinset).card ∧
    1 ≤ (featRowOf exDf 1).frequency :=
  frequency_distinct_invoices exDf 1 (by decide)

/-- C6: every scored row carries the segment obtained from its cluster id by
the static lookup, and the lookup maps 0, 1, 2 to the three segment names
and every other integer to "Unknown". -/
theorem cluster_segment_static_map :
    (∀ (features : List FeatRow) (scaler : ℚ × ℚ × ℚ → ℚ × ℚ × ℚ)
        (predict : List (ℚ × ℚ × ℚ) → List Int) (row : ScoredRow),
        row ∈ score_segments features scaler predict →
        row.segment = segmentOf row.cluster) ∧
    segmentOf 0 = "At-Risk Customers" ∧
    segmentOf 1 = "Regular Customers" ∧
    segmentOf 2 = "VIP Customers" ∧
    ∀ c : Int, c ≠ 0 → c ≠ 1 → c ≠ 2 → segmentOf c = "Unknown" := by
  refine ⟨?_, rfl, rfl, rfl, ?_⟩
  · intro features scaler predict row hrow
    simp only [score_segments] at hrow
    obtain ⟨rc, _hrc, rfl⟩ := List.mem_map.mp hrow
    rfl
  · intro c h0 h1 h2
    simp [segmentOf, CLUSTER_MAP, h0, h1, h2]

/-- C6, witness: the lookup at ids inside and outside the table. -/
theorem cluster_segment_static_map_witness :
    segmentOf 7 = "Unknown" ∧ segmentOf 0 = "At-Risk Customers" :=
  ⟨cluster_segment_static_map.2.2.2.2 7 (by decide) (by decide) (by decide),
   cluster_segment_static_map.2.1⟩

/-- C7: when the model returns one cluster id per row (as the fitted model
contract requires, and as pandas enforces when assigning the column),
`score_segments` preserves row order end to end: the bases of the output are
the feature rows in order, the cluster column is exactly the predicted list
over the scaled RFM triples extracted in the fixed [recency, frequency,
monetary] order, and each segment is the static lookup of the cluster. -/
theorem score_segments_row_order (features : List FeatRow)
    (scaler : ℚ × ℚ × ℚ → ℚ × ℚ × ℚ) (predict : List (ℚ × ℚ × ℚ) → List Int)
    (hlen : (predict ((features.map rfmOf).map scaler)).length = features.length) :
    (score_segments features scaler predict).length = features.length ∧
    (score_segments features scaler predict).map (fun row => row.base) = features ∧
    (score_segments features scaler predict).map (fun row => row.cluster) =
      predict ((features.map rfmOf).map scaler) ∧
    ∀ row ∈ score_segments features scaler predict,
      row.segment = segmentOf row.cluster := by
  simp only [score_segments]
  refine ⟨?_, ?_, ?_, ?_⟩
  · rw [List.length_map, List.length_zip, hlen, min_self]
  · rw [List.map_map]
    exact List.map_fst_zip features _ (le_of_eq hlen.symm)
  · rw [List.map_map]
    exact List.map_snd_zip features _ (le_of_eq hlen)
  · intro row hrow
    obtain ⟨rc, _h, rfl⟩ := List.mem_map.mp hrow
    rfl

/-- Example feature row of a first recipient. -/
def exFeatA : FeatRow :=
  { customerID := 1, name := some "Bob", email := some "bob@x.com",
    lastPurchase := 100, favCategory := "TEA SET", totalSpent := 30,
    daysAgo := 2, recency := 2, frequency := 1, monetary := 30 }

/-- Example feature row of a second recipient. -/
def exFeatB : FeatRow :=
  { customerID := 3, name := some "Carol", email := some "carol@x.com",
    lastPurchase := 101, favCategory := "COFFEE", totalSpent := 20,
    daysAgo := 1, recency := 1, frequency := 1, monetary := 20 }

/-- C7, witness at one feature row with a constant model. -/
theorem score_segments_row_order_witness :
    (score_segments [exFeatA] (fun v => v) (fun xs => xs.map (fun _ => (5 : Int)))).map
      (fun row => row.base) = [exFeatA] ∧
    (score_segments [exFeatA] (fun v => v) (fun xs => xs.map (fun _ => (5 : Int)))).map
      (fun row => row.cluster) = [5] := by
  have h := score_segments_row_order [exFeatA] (fun v => v)
    (fun xs => xs.map (fun _ => (5 : Int))) (by simp)
  exact ⟨h.2.1, h.2.2.1⟩

/-- Example scored row of the first recipient. -/
def exScoredA : ScoredRow :=
  { base := exFeatA, cluster := 0, segment := segmentOf 0 }

/-- Example scored row of the second recipient. -/
def exScoredB : ScoredRow :=
  { base := exFeatB, cluster := 1, segment := segmentOf 1 }

theorem send_loop_none_eq_filter (sendOk : ScoredRow → Bool) :
    ∀ (rows : List ScoredRow) (sent : Int),
      send_loop sendOk none rows sent =
        rows.filter (fun r => validEmail r.base.email && sendOk r) := by
  intro rows
  induction rows with
  | nil => intro sent; rfl
  | cons r rs ih =>
    intro sent
    by_cases hv : validEmail r.base.email = true
    · by_cases hs : sendOk r = true
      · simp [send_loop, List.filter_cons, hv, hs, limitHit, ih]
      · simp [send_loop, List.filter_cons, hv, hs, ih]
    · simp [send_loop, List.filter_cons, hv, ih]

theorem send_loop_zero_eq_filter (sendOk : ScoredRow → Bool) :
    ∀ (rows : List ScoredRow) (sent : Int),
      send_loop sendOk (some 0) rows sent =
        rows.filter (fun r => validEmail r.base.email && sendOk r) := by
  intro rows
  induction rows with
  | nil => intro sent; rfl
  | cons r rs ih =>
    intro sent
    by_cases hv : validEmail r.base.email = true
    · by_cases hs : sendOk r = true
      · simp [send_loop, List.filter_cons, hv, hs, limitHit, ih]
      · simp [send_loop, List.filter_cons, hv, hs, ih]
    · simp [send_loop, List.filter_cons, hv, ih]

theorem send_loop_cap_eq_take (sendOk : ScoredRow → Bool) :
    ∀ (rows : List ScoredRow) (n sent : Int), 0 ≤ sent → sent < n →
      send_loop sendOk (some n) rows sent =
        (rows.filter (fun r => validEmail r.base.email && sendOk r)).take
          (n - sent).toNat := by
  intro rows
  induction rows with
  | nil => intro n sent h0 hlt; simp [send_loop]
  | cons r rs ih =>
    intro n sent h0 hlt
    have hn0 : ¬ (n = 0) := by omega
    by_cases hv : validEmail r.base.email = true
    · by_cases hs : sendOk r = true
      · by_cases hb : n ≤ sent + 1
        · have hbreak : limitHit (some n) (sent + 1) = true := by
            simp [limitHit, hn0, hb]
          have ht : (n - sent).toNat = 1 := by omega
          have lhs1 : send_loop sendOk (some n) (r :: rs) sent = [r] := by
            simp only [send_loop]
            rw [if_pos hv, if_pos hs, if_pos hbreak]
          rw [lhs1, List.filter_cons_of_pos (by simp [hv, hs]), ht]
          simp
        · have hbreak : limitHit (some n) (sent + 1) = false := by
            simp [limitHit, hn0]
            omega
          have ih2 := ih n (sent + 1) (by omega) (by omega)
          have ht : (n - sent).toNat = (n - (sent + 1)).toNat + 1 := by omega
          have lhs1 : send_loop sendOk (some n) (r :: rs) sent =
              r :: send_loop sendOk (some n) rs (sent + 1) := by
            simp only [send_loop]
            rw [if_pos hv, if_pos hs, if_neg (by simp [hbreak])]
          rw [lhs1, ih2, List.filter_cons_of_pos (by simp [hv, hs]), ht,
            List.take_succ_cons]
      · have lhs1 : send_loop sendOk (some n) (r :: rs) sent =
            send_loop sendOk (some n) rs sent := by
          simp only [send_loop]
          rw [if_pos hv, if_neg (by simp [hs])]
        rw [lhs1, ih n sent h0 hlt, List.filter_cons_of_neg (by simp [hs])]
    · have lhs1 : send_loop sendOk (some n) (r :: rs) sent =
          send_loop sendOk (some n) rs sent := by
        simp only [send_loop]
        rw [if_neg (by simp [hv])]
      rw [lhs1, ih n sent h0 hlt, List.filter_cons_of_neg (by simp [hv])]

/-- C8, counterexample: with the caller-supplied cap 0, the Python truthiness
test `if limit and sent >= limit` never fires (0 is falsy), so the loop
sends to both valid recipients instead of stopping at 0 sent messages. -/
theorem send_loop_zero_cap_cex :
    send_loop (fun _ => true) (some 0) [exScoredA, exScoredB] 0 =
      [exScoredA, exScoredB] ∧
    ¬ ((send_loop (fun _ => true) (some 0) [exScoredA, exScoredB] 0).length ≤ 0) := by
  refine ⟨by decide, by decide⟩

/-- C8 (amended): for every positive caller-supplied cap n, the dispatch loop
sends to exactly the first n rows, in the given (monetary-descending) row
order, among those with a valid email and a successful send; rows with a
missing email or an email without "@" are skipped without counting against
the cap, and never more than n messages are sent. With no cap, or with the
cap 0 (falsy in Python, so the cap is disabled), the loop sends to every
valid recipient. -/
theorem send_loop_cap_take (sendOk : ScoredRow → Bool) (rows : List ScoredRow)
    (n : Int) (hn : 1 ≤ n) :
    send_loop sendOk (some n) rows 0 =
      (rows.filter (fun r => validEmail r.base.email && sendOk r)).take n.toNat ∧
    (send_loop sendOk (some n) rows 0).length ≤ n.toNat ∧
    send_loop sendOk none rows 0 =
      rows.filter (fun r => validEmail r.base.email && sendOk r) ∧
    send_loop sendOk (some 0) rows 0 =
      rows.filter (fun r => validEmail r.base.email && sendOk r) := by
  have h1 := send_loop_cap_eq_take sendOk rows n 0 (le_refl 0) (by omega)
  have ht : (n - (0 : Int)).toNat = n.toNat := by omega
  rw [ht] at h1
  refine ⟨h1, ?_, send_loop_none_eq_filter sendOk rows 0,
    send_loop_zero_eq_filter sendOk rows 0⟩
  rw [h1, List.length_take]
  exact min_le_left _ _

/-- C8, witness for the amended theorem: cap 1 over two valid recipients
sends to exactly the first. -/
theorem send_loop_cap_take_witness :
    send_loop (fun _ => true) (some 1) [exScoredA, exScoredB] 0 =
      (([exScoredA, exScoredB]).filter
        (fun r => validEmail r.base.email && true)).take (1 : Int).toNat :=
  (send_loop_cap_take (fun _ => true) [exScoredA, exScoredB] 1 (by decide)).1

instance (df : List TxRow) (c : Int) : IsTotal String (favRel df c) where
  total := by
    intro a b
    unfold favRel
    rcases lt_trichotomy (qtyOf df c a) (qtyOf df c b) with h | h | h
    · exact Or.inr (Or.inl h)
    · rcases le_total (revOf df c b) (revOf df c a) with hr | hr
      · exact Or.inl (Or.inr ⟨h, hr⟩)
      · exact Or.inr (Or.inr ⟨h.symm, hr⟩)
    · exact Or.inl (Or.inl h)

instance (df : List TxRow) (c : Int) : IsTrans String (favRel df c) where
  trans := by
    intro a b d hab hbd
    unfold favRel at hab hbd ⊢
    rcases hab with h1 | ⟨h1, h1r⟩
    · rcases hbd with h2 | ⟨h2, h2r⟩
      · exact Or.inl (lt_trans h2 h1)
      · exact Or.inl (by rw [← h2]; exact h1)
    · rcases hbd with h2 | ⟨h2, h2r⟩
      · exact Or.inl (by rw [h1]; exact h2)
      · exact Or.inr ⟨h1.trans h2, le_trans h2r h1r⟩

/-- Supporting fact for the favorite-category tie-break: the picked
description precedes every description of the customer under the
quantity-then-revenue precedence, so it has the highest summed quantity and,
among equal quantities, the highest summed revenue. -/
theorem favOf_maximal (df : List TxRow) (c : Int) (d : String)
    (hd : d ∈ descsOf df c) : favRel df c (favOf df c) d := by
  have hs : List.Sorted (favRel df c)
      (List.insertionSort (favRel df c) (descsOf df c)) :=
    List.sorted_insertionSort _ _
  have hmem : d ∈ List.insertionSort (favRel df c) (descsOf df c) :=
    (List.mem_insertionSort _).mpr hd
  unfold favOf
  cases hq : List.insertionSort (favRel df c) (descsOf df c) with
  | nil => rw [hq] at hmem; cases hmem
  | cons a as =>
    rw [hq] at hmem hs
    rcases List.mem_cons.mp hmem with h1 | h1
    · subst h1
      exact Or.inr ⟨rfl, le_refl _⟩
    · exact (List.sorted_cons.mp hs).1 d h1

/-- Supporting fact for the message composer: whenever the days value is
present, every input yields a (subject, body) pair; only the missing-days
At-Risk/Unknown path can raise. -/
theorem generate_email_days_present_ok (name fav : Option String)
    (seg : String) (d : Int) :
    ∃ sb, generate_email name seg (some d) fav = Except.ok sb := by
  simp only [generate_email]
  by_cases h1 : seg = "VIP Customers"
  · rw [if_pos h1]; exact ⟨_, rfl⟩
  · rw [if_neg h1]
    by_cases h2 : seg = "Regular Customers"
    · rw [if_pos h2]; exact ⟨_, rfl⟩
    · rw [if_neg h2]; exact ⟨_, rfl⟩

/-- Supporting fact for the message composer fallbacks: a missing name
renders as "there" and a missing favorite category as "your favorites". -/
theorem generate_email_missing_fallbacks :
    generate_email none "VIP Customers" none none =
      Except.ok ("Exclusive early access just for you",
        "Hey there,\n\nAs one of our VIPs, enjoy early access to new arrivals in your favorites.\nThanks for being with us!") := by
  rfl

/-- Supporting fact for the message composer fallbacks: a blank name and a
blank favorite category fall back the same way. -/
theorem generate_email_blank_fallbacks :
    generate_email (some "   ") "VIP Customers" none (some " ") =
      Except.ok ("Exclusive early access just for you",
        "Hey there,\n\nAs one of our VIPs, enjoy early access to new arrivals in your favorites.\nThanks for being with us!") := by
  decide
